import Mathlib

/-!
Verification development for the TTS + subtitles + video generator
(`main.py`, `audio_utils.py`, `video_utils.py`, `settings.py`).

Times are integer milliseconds (Python `int` → `Int`); audio segments are
modelled by their length in milliseconds (`Nat`), which is the only
attribute the timeline logic reads (`pydub` `len(seg)`; at the configured
48 kHz sample rate `AudioSegment.silent(duration=d)` has length `max d 0`
ms exactly).  External capabilities (TTS synthesis, HTTP search, file
downloads) are passed as function parameters.  Python `float` scores are
modelled with `ℚ`; every concrete value evaluated in this file is exactly
representable in binary floating point, and the generic theorems only use
(in)equalities preserved by the rational model.
-/

namespace TTSApp

/-- Cue record, mirroring the dicts built in `main.py` (`cues_draft`) and
consumed by `audio_utils.build_audio_snapped_to_cues`. -/
structure Cue where
  start_ms : Int
  end_ms : Int
  text : String
  lang : String
  repeatCnt : Int
  is_primary : Bool
  tags : List String
deriving Repr, DecidableEq

/-! ### Audio builder (`audio_utils.py`, `build_audio_snapped_to_cues`) -/

/-- Length of the repetition block built in the per-cue loop of
`build_audio_snapped_to_cues` (audio_utils.py lines 354-358): `repeat`
copies of the utterance with the inter-repeat gap inserted only between
copies, where `repeat = max(1, cue.repeat)` and the gap segment has length
`max 0 pause_rep_ms`. -/
def built_block_len (segLen gapLen : Nat) (repeatCnt : Int) : Nat :=
  let r : Nat := (max 1 repeatCnt).toNat
  r * segLen + (r - 1) * gapLen

/-- Target duration of a cue: `max(0, end_ms - start_ms)`
(audio_utils.py line 348). -/
def cue_target_ms (c : Cue) : Nat :=
  (c.end_ms - c.start_ms).toNat

/-- Length of the audio emitted for one cue by
`build_audio_snapped_to_cues` (audio_utils.py lines 353-364): the
repetition block is padded with trailing silence when shorter than the
target and truncated when longer, but only when the target is positive.
`tts` gives the measured length of the synthesized utterance. -/
def cue_emit_len (tts : String → String → Nat) (pause_rep_ms : Int) (c : Cue) : Nat :=
  let segLen := tts c.text c.lang
  let gapLen := (max 0 pause_rep_ms).toNat
  let b := built_block_len segLen gapLen c.repeatCnt
  let tgt := cue_target_ms c
  if 0 < tgt then
    if b < tgt then tgt
    else if tgt < b then tgt
    else b
  else b

/-- Total length of the audio built by `build_audio_snapped_to_cues`
(audio_utils.py lines 340-371): before each cue the output is padded with
silence up to the cue's nominal start (`pad_needed = max(0, start_ms -
len(out))`), then the fitted block is appended. -/
def build_audio_snapped_to_cues (tts : String → String → Nat) (pause_rep_ms : Int) :
    List Cue → Nat → Nat
  | [], outLen => outLen
  | c :: rest, outLen =>
    let padded := outLen + (c.start_ms - outLen).toNat
    build_audio_snapped_to_cues tts pause_rep_ms rest (padded + cue_emit_len tts pause_rep_ms c)

/-! ### Draft cue timeline builder (`main.py`, `main`, lines 696-746) -/

/-- One parsed logical line `(primary_clean, secondary_raw, tags)`
(main.py line 686). -/
structure Triple where
  primary : String
  secondary : String
  tags : List String
deriving Repr, DecidableEq

/-- Configuration read from settings at the top of `main()`:
repeat counts (`Int`, from `int(repeat_conf.get(...))`), the measured
lengths of the two silence segments (`Nat`), the bilingual flag and the
two language codes. -/
structure DraftConfig where
  pRep : Int
  sRep : Int
  gapRep : Nat
  gapSent : Nat
  bilingual : Bool
  pLang : String
  sLang : String
deriving Repr

/-- Window length of a primary cue as computed on main.py line 713:
`PRIMARY_REPEAT_CNT * dur_one + max(0, PRIMARY_REPEAT_CNT - 1) *
len(silence_rep)`. -/
def primary_window (rep : Int) (dur : Nat) (gapRep : Nat) : Int :=
  rep * dur + max 0 (rep - 1) * gapRep

/-- Draft cue list built by the loop on main.py lines 710-746, starting
from cursor `t`: a primary cue at `[t, t+window)`, a fixed gap of
`max(len(silence_sent), 1700)` before the translation, an optional
secondary cue when bilingual mode is on and the secondary text is
non-empty, and a gap of `len(silence_sent)` after each pair.
`tts` measures the synthesized utterance length. -/
def build_draft_cues_from (tts : String → String → Nat) (cfg : DraftConfig) :
    Int → List Triple → List Cue
  | _, [] => []
  | t, tr :: rest =>
    let w1 : Int := primary_window cfg.pRep (tts tr.primary cfg.pLang) cfg.gapRep
    let c1 : Cue := ⟨t, t + w1, tr.primary, cfg.pLang, cfg.pRep, true, tr.tags⟩
    let t2 : Int := t + w1 + (max cfg.gapSent 1700 : Nat)
    if cfg.bilingual ∧ tr.secondary ≠ "" then
      let w2 : Int := primary_window cfg.sRep (tts tr.secondary cfg.sLang) cfg.gapRep
      let c2 : Cue := ⟨t2, t2 + w2, tr.secondary, cfg.sLang, cfg.sRep, false, []⟩
      c1 :: c2 :: build_draft_cues_from tts cfg (t2 + w2 + (cfg.gapSent : Nat)) rest
    else
      c1 :: build_draft_cues_from tts cfg (t2 + (cfg.gapSent : Nat)) rest

/-- Draft cue timeline: the loop starts with `t = 0` (main.py line 697). -/
def build_draft_cues (tts : String → String → Nat) (cfg : DraftConfig)
    (triples : List Triple) : List Cue :=
  build_draft_cues_from tts cfg 0 triples

/-! ### Grid snap

`round_to_ass_grid` is imported in `main.py` from a `subtitles` module that
is not part of this repository's sources (only the fallback stub and the
call sites on lines 769-772 are). -/

/-- Modelled from the spec: the missing `subtitles.round_to_ass_grid`
rounds a millisecond timestamp to the nearest unit of the fixed 10 ms
(ASS centisecond) grid, per spec §4.5 ("rounds every `start_ms`/`end_ms`
to the nearest unit of a fixed sub-second grid (e.g. 10ms)") and
`settings.ALIGN_TO_ASS_CENTISECOND_GRID`.  Ties round up. -/
def round_to_ass_grid (x : Int) : Int :=
  10 * ((x + 5).fdiv 10)

/-! ### Slideshow assembler (`video_utils.py`, lines 950-1020) -/

/-- Visual spans computed by `compute_visual_spans` (video_utils.py lines
950-960): cue `i` spans from its own start to `max(start, next.start)`;
the last cue's span ends at the total audio length. -/
def compute_visual_spans : List Cue → Int → List (Int × Int)
  | [], _ => []
  | [c], total => [(c.start_ms, total)]
  | c :: c2 :: rest, total =>
    (c.start_ms, max c.start_ms c2.start_ms) :: compute_visual_spans (c2 :: rest) total

/-- Python `round` on a real value: round half to even. -/
def pythonRound (q : ℚ) : Int :=
  let f : Int := q.floor
  let r : ℚ := q - f
  if r < 1 / 2 then f
  else if 1 / 2 < r then f + 1
  else if f % 2 = 0 then f else f + 1

/-- Frame count of one slideshow segment (video_utils.py lines 972-973):
`dur_ms = max(0, end_ms - start_ms)`;
`frames = max(1, round(dur_ms * fps / 1000))`. -/
def seg_frames (span : Int × Int) (fps : Nat) : Int :=
  let durMs : Int := max 0 (span.2 - span.1)
  max 1 (pythonRound ((durMs * (fps : Int) : Int) / (1000 : ℚ)))

/-- Frame counts of all segments rendered by `build_slideshow_video_cfr`
(video_utils.py lines 962-1002). -/
def slideshow_frame_counts (cues : List Cue) (total_audio_ms : Int) (fps : Nat) : List Int :=
  (compute_visual_spans cues total_audio_ms).map (fun sp => seg_frames sp fps)

/-! ### Text normalization (`video_utils.py`, lines 99-147)

Text is manipulated as `List Char`.  `_strip_accents` (Unicode NFD plus
removal of combining marks) is modelled by a folding table covering the
Latin accented characters appearing in this repository's data; characters
outside the table (e.g. Farsi letters, `ß`) are left unchanged, matching
NFD on the strings this file evaluates. -/

/-- Python `\s` whitespace (the characters occurring in this model). -/
def pySpace (c : Char) : Bool :=
  c = ' ' || c = '\t' || c = '\n' || c = '\r' || c = '\x0b' || c = '\x0c'

/-- Membership in Python `string.punctuation`. -/
def pyPunct (c : Char) : Bool :=
  c = '!' || c = '"' || c = '#' || c = '$' || c = '%' || c = '&' || c = Char.ofNat 39 ||
  c = '(' || c = ')' || c = '*' || c = '+' || c = ',' || c = '-' || c = '.' || c = '/' ||
  c = ':' || c = ';' || c = '<' || c = '=' || c = '>' || c = '?' || c = '@' || c = '[' ||
  c = '\\' || c = ']' || c = '^' || c = '_' || c = Char.ofNat 96 || c = Char.ofNat 123 ||
  c = '|' || c = Char.ofNat 125 || c = '~'

/-- The character replacements on video_utils.py line 103:
right single quote → apostrophe; non-breaking hyphen, en dash, em dash → hyphen. -/
def replaceSpecialChar (c : Char) : Char :=
  if c = Char.ofNat 8217 then Char.ofNat 39
  else if c = Char.ofNat 8209 || c = Char.ofNat 8211 || c = Char.ofNat 8212 then '-'
  else c

/-- Accent folding table modelling `_strip_accents ∘ str.lower` on one
character (video_utils.py lines 99-100). -/
def foldAccent (c : Char) : Char :=
  if c = 'à' || c = 'á' || c = 'â' || c = 'ã' || c = 'ä' || c = 'å' then 'a'
  else if c = 'è' || c = 'é' || c = 'ê' || c = 'ë' then 'e'
  else if c = 'ì' || c = 'í' || c = 'î' || c = 'ï' then 'i'
  else if c = 'ò' || c = 'ó' || c = 'ô' || c = 'õ' || c = 'ö' then 'o'
  else if c = 'ù' || c = 'ú' || c = 'û' || c = 'ü' then 'u'
  else if c = 'ý' || c = 'ÿ' then 'y'
  else if c = 'ñ' then 'n'
  else if c = 'ç' then 'c'
  else c

/-- Maximal whitespace-free runs of a character list (Python `str.split()`). -/
def splitWsAux (acc : List Char) : List Char → List (List Char)
  | [] => if acc = [] then [] else [acc.reverse]
  | c :: rest =>
    if pySpace c then
      if acc = [] then splitWsAux [] rest else acc.reverse :: splitWsAux [] rest
    else splitWsAux (c :: acc) rest

/-- Python `str.strip()`. -/
def stripList (s : List Char) : List Char :=
  ((s.dropWhile pySpace).reverse.dropWhile pySpace).reverse

/-- Core of `_normalize_text` (video_utils.py lines 102-107): special-char
replacement, lowercasing, accent stripping, punctuation removal, whitespace
collapse and strip. -/
def normalizeList (s : List Char) : List Char :=
  let mapped := s.map (fun c => foldAccent (Char.toLower (replaceSpecialChar c)))
  let noPunct := mapped.filter (fun c => !pyPunct c)
  List.intercalate [' '] (splitWsAux [] noPunct)

/-- String-level `_normalize_text`. -/
def _normalize_text (s : String) : String :=
  String.mk (normalizeList s.data)

/-- Stopword set `STOPWORDS_EN` (video_utils.py lines 71-78). -/
def STOPWORDS_EN : List String :=
  ["the", "a", "an", "and", "or", "but", "in", "on", "at", "for", "with", "to", "of",
   "is", "are", "was", "were", "this", "that", "these", "those", "please", "can",
   "could", "you", "i", "it", "my", "your", "me", "we", "they", "do", "have", "has",
   "am", "be", "been", "being", "will", "would", "should", "could", "may", "might",
   "make", "made", "take", "bring", "need", "want", "like", "show", "explain",
   "print", "charge", "put", "add", "less", "more", "without", "no", "not", "isn",
   "aren", "does", "did", "doesn", "don", "cannot", "ok", "size", "small", "medium",
   "large", "here", "there", "set", "are", "card", "cash", "by", "from", "with"]

/-- Stopword set `STOPWORDS_FR` (video_utils.py lines 79-87). -/
def STOPWORDS_FR : List String :=
  ["je", "tu", "il", "elle", "nous", "vous", "ils", "elles", "de", "des", "du", "le",
   "la", "les", "un", "une", "et", "ou", "mais", "dans", "en", "au", "aux", "avec",
   "pour", "par", "sur", "sous", "ce", "cet", "cette", "ces", "mon", "ma", "mes",
   "ton", "ta", "tes", "son", "sa", "ses", "leur", "leurs", "est", "suis", "es",
   "sommes", "êtes", "sont", "ne", "pas", "que", "qui", "quoi", "où", "quand",
   "comment", "aujourd’hui", "d", "l", "n", "c", "j", "t", "s", "moi", "toi", "lui",
   "elle", "leur", "y", "en", "bien", "svp", "s’il", "vous", "plaît", "veuillez",
   "faire", "mettre", "prendre", "apporter", "besoin", "voudrais", "taille",
   "petite", "moyenne", "grande", "ici", "là", "sur", "place", "à", "emporter",
   "carte", "espèces"]

/-- Stopword set `STOPWORDS_DE` (video_utils.py lines 88-94). -/
def STOPWORDS_DE : List String :=
  ["der", "die", "das", "ein", "eine", "einen", "einem", "einer", "und", "oder",
   "aber", "in", "auf", "an", "bei", "für", "mit", "zu", "von", "ist", "sind",
   "war", "waren", "bitte", "kann", "können", "könnten", "sie", "ich", "es",
   "mein", "meine", "dein", "deine", "ihr", "ihre", "unser", "unsere", "dies",
   "das", "diese", "jene", "machen", "nehmen", "bringen", "brauche", "möchte",
   "mag", "zeigen", "erklären", "drucken", "belasten", "geben", "weniger", "mehr",
   "ohne", "nicht", "größe", "kleine", "mittlere", "große", "hier", "da", "karte",
   "bar"]

/-- Stopword set `STOPWORDS_FA` (video_utils.py line 95). -/
def STOPWORDS_FA : List String :=
  ["و", "در", "به", "از", "که", "این", "آن", "برای", "با", "یا", "اما", "یک", "هم",
   "را", "تا", "ما", "شما", "او", "ایشان", "همه", "هر", "لطفاً", "خواهش", "می",
   "شود", "کنید", "است", "هستم", "هستید"]

/-- Negator words (video_utils.py line 97), in declaration order (the
source iterates them as a Python set, whose order is unspecified; every
property proved below is insensitive to this order). -/
def NEGATORS : List String :=
  ["no", "not", "without", "ohne", "sans", "بدون", "نیست", "نکن"]

/-- Language-indexed stopword selection (video_utils.py lines 119-126). -/
def _language_stopwords (lang : String) : List String :=
  if lang.startsWith "fr" then STOPWORDS_FR
  else if lang.startsWith "de" then STOPWORDS_DE
  else if lang.startsWith "fa" then STOPWORDS_FA
  else STOPWORDS_EN

/-- Tokenizer `_tokenize` (video_utils.py lines 128-132): normalized words
of length > 2 that are not stopwords of the language. -/
def _tokenize (text : String) (lang : String) : List String :=
  let words := (splitWsAux [] (normalizeList text.data)).map String.mk
  let sw := _language_stopwords lang
  words.filter (fun w => 2 < w.length && !(sw.contains w))

/-- Character trigram set of a padded string, as a first-occurrence
deduplicated list (video_utils.py lines 137-139). -/
def _trigrams (s : List Char) : List (List Char) :=
  let padded := [' ', ' '] ++ s ++ [' ', ' ']
  ((List.range (padded.length - 3 + 1)).map (fun i => (padded.drop i).take 3)).dedup

/-- Trigram Jaccard similarity `_tri_sim` (video_utils.py lines 141-147). -/
def _tri_sim (a b : List Char) : ℚ :=
  let A := _trigrams (normalizeList a)
  let B := _trigrams (normalizeList b)
  if A = [] ∨ B = [] then 0
  else
    let inter := (A.filter (fun t => B.contains t)).length
    let union := A.length + B.length - inter
    (inter : ℚ) / (union : ℚ)

/-! ### Domain lexicon (`video_utils.py`, lines 152-360) -/

/-- One entry of `LEXICON`: a canonical concept key and its per-language
surface-form variant lists. -/
structure LexEntry where
  canonical : String
  en : List String
  fr : List String
  de : List String
  fa : List String
deriving Repr, DecidableEq

/-- Python `variants.get(code, [])`. -/
def LexEntry.get (e : LexEntry) (code : String) : List String :=
  if code = "en" then e.en
  else if code = "fr" then e.fr
  else if code = "de" then e.de
  else if code = "fa" then e.fa
  else []

set_option maxHeartbeats 2000000 in
/-- The full `LEXICON` table (video_utils.py lines 152-248), in declaration
order. -/
def LEXICON : List LexEntry :=
  [⟨"espresso", ["espresso"], ["expresso", "espresso"], ["espresso"], ["اسپرسو"]⟩,
   ⟨"americano", ["americano"], ["allonge", "americano"], ["americano"], ["آمریکانو"]⟩,
   ⟨"cappuccino", ["cappuccino"], ["cappuccino"], ["cappuccino"], ["کاپوچینو"]⟩,
   ⟨"latte", ["latte"], ["latte"], ["latte"], ["لاته"]⟩,
   ⟨"flat white", ["flat white"], ["flat white"], ["flat white"], ["فلت وایت", "فلت وايت"]⟩,
   ⟨"black coffee", ["black coffee"], ["cafe noir"], ["schwarzer kaffee"], ["قهوه ساده", "قهوه سیاه"]⟩,
   ⟨"green tea", ["green tea"], ["the vert"], ["gruner tee", "gruener tee", "grüner tee"], ["چای سبز"]⟩,
   ⟨"herbal tea", ["herbal tea"], ["tisane"], ["krautertee", "kräutertee"], ["دمنوش", "چای گیاهی"]⟩,
   ⟨"hot chocolate", ["hot chocolate"], ["chocolat chaud"], ["heisse schokolade", "heiße schokolade"], ["هات چاکلت", "شکلات داغ"]⟩,
   ⟨"croissant", ["croissant"], ["croissant"], ["croissant"], ["کرواسان"]⟩,
   ⟨"sandwich", ["sandwich"], ["sandwich"], ["sandwich"], ["ساندویچ"]⟩,
   ⟨"menu", ["menu"], ["menu", "carte"], ["speisekarte"], ["منو"]⟩,
   ⟨"bill", ["bill", "check"], ["addition"], ["rechnung"], ["صورت حساب", "فاکتور"]⟩,
   ⟨"receipt", ["receipt"], ["recu", "reçu"], ["beleg", "quittung"], ["رسید"]⟩,
   ⟨"cough syrup", ["cough syrup"], ["sirop contre la toux"], ["hustensirup"], ["شربت سرفه"]⟩,
   ⟨"pain tablets", ["pain tablets", "painkillers"], ["comprimés contre la douleur"], ["schmerztabletten"], ["قرص مسکن"]⟩,
   ⟨"nasal spray", ["nasal spray"], ["spray nasal"], ["nasenspray"], ["اسپری بینی"]⟩,
   ⟨"thermometer", ["thermometer"], ["thermometre", "thermomètre"], ["thermometer"], ["دماسنج"]⟩,
   ⟨"vitamins", ["vitamins"], ["vitamines"], ["vitamine"], ["ویتامین"]⟩,
   ⟨"pharmacy interior", ["pharmacy"], ["pharmacie"], ["apotheke"], ["داروخانه"]⟩,
   ⟨"passport", ["passport"], ["passeport"], ["reisepass"], ["پاسپورت", "گذرنامه"]⟩,
   ⟨"boarding pass", ["boarding pass"], ["carte dembarquement", "carte d embarquement"], ["bordkarte"], ["کارت پرواز"]⟩,
   ⟨"check in desk", ["check in desk", "check-in counter"], ["comptoir denregistrement", "comptoir d enregistrement"], ["check in schalter", "check-in schalter"], ["کانتر پذیرش", "گیشه پذیرش"]⟩,
   ⟨"gate", ["gate"], ["porte dembarquement", "porte"], ["gate"], ["گیت"]⟩,
   ⟨"carry on bag", ["carry on bag", "cabin bag"], ["bagage cabine"], ["handgepäck"], ["ساک دستی", "چمدان کابین"]⟩,
   ⟨"suitcase", ["suitcase", "luggage"], ["valise"], ["koffer"], ["چمدان"]⟩,
   ⟨"airport interior", ["airport"], ["aeroport", "aéroport"], ["flughafen"], ["فرودگاه"]⟩,
   ⟨"bank account", ["bank account"], ["compte bancaire"], ["bankkonto"], ["حساب بانکی"]⟩,
   ⟨"debit card", ["bank card", "debit card"], ["carte bancaire"], ["bankkarte"], ["کارت بانکی"]⟩,
   ⟨"pin code", ["pin code"], ["code pin"], ["pin"], ["رمز کارت", "پین"]⟩,
   ⟨"bank transfer", ["money transfer", "bank transfer"], ["virement"], ["überweisung", "ueberweisung"], ["انتقال وجه"]⟩,
   ⟨"online banking", ["online banking"], ["banque en ligne"], ["online banking"], ["بانکداری آنلاین"]⟩,
   ⟨"bank interior", ["bank"], ["banque"], ["bank"], ["بانک"]⟩,
   ⟨"jacket", ["jacket"], ["veste"], ["jacke"], ["کت", "کاپشن"]⟩,
   ⟨"shirt", ["shirt"], ["chemise"], ["hemd"], ["پیراهن"]⟩,
   ⟨"trousers", ["trousers", "pants"], ["pantalon"], ["hose"], ["شلوار"]⟩,
   ⟨"dress", ["dress"], ["robe"], ["kleid"], ["پیراهن زنانه", "لباس"]⟩,
   ⟨"shoes", ["shoes"], ["chaussures"], ["schuhe"], ["کفش"]⟩,
   ⟨"belt", ["belt"], ["ceinture"], ["gürtel", "guertel"], ["کمربند"]⟩,
   ⟨"fitting room", ["fitting room", "changing room"], ["cabine dessayage", "cabine d essayage"], ["umkleidekabine"], ["اتاق پرو"]⟩,
   ⟨"cashier", ["cashier", "checkout"], ["caisse"], ["kasse"], ["صندوق", "صندوقدار"]⟩,
   ⟨"clothing store interior", ["clothing store"], ["magasin de vetements", "magasin de vêtements"], ["kleidungsgeschaeft", "kleidungsgeschäft"], ["فروشگاه لباس"]⟩,
   ⟨"bus stop", ["bus stop"], ["arret de bus", "arrêt de bus"], ["bushaltestelle"], ["ایستگاه اتوبوس"]⟩,
   ⟨"park", ["park"], ["parc"], ["park"], ["پارک"]⟩,
   ⟨"map", ["map"], ["plan", "carte"], ["karte"], ["نقشه"]⟩,
   ⟨"street", ["street"], ["rue"], ["straße", "strasse"], ["خیابان"]⟩,
   ⟨"square", ["square", "plaza"], ["place"], ["platz"], ["میدان"]⟩,
   ⟨"bridge", ["bridge"], ["pont"], ["brücke", "bruecke"], ["پل"]⟩,
   ⟨"hotel exterior", ["hotel"], ["hotel", "hôtel"], ["hotel"], ["هتل"]⟩,
   ⟨"fever", ["fever"], ["fievre", "fièvre"], ["fieber"], ["تب"]⟩,
   ⟨"cough", ["cough"], ["toux"], ["husten"], ["سرفه"]⟩,
   ⟨"sore throat", ["sore throat"], ["mal de gorge"], ["halsschmerzen"], ["گلودرد"]⟩,
   ⟨"stomach ache", ["stomach ache", "stomachache"], ["mal de ventre"], ["bauchschmerzen"], ["دل درد", "درد معده"]⟩,
   ⟨"prescription", ["prescription"], ["ordonnance"], ["rezept"], ["نسخه پزشکی"]⟩,
   ⟨"clinic interior", ["clinic", "doctor office"], ["clinique", "cabinet medical", "cabinet médical"], ["arztpraxis", "klinik"], ["کلینیک", "مطب"]⟩,
   ⟨"reservation", ["reservation", "booking"], ["reservation", "réservation"], ["reservierung"], ["رزرو"]⟩,
   ⟨"check in", ["check in", "check-in"], ["check in", "check-in"], ["einchecken"], ["پذیرش", "چک این"]⟩,
   ⟨"key card", ["key card"], ["carte de cle", "carte de clé"], ["schlüsselkarte"], ["کارت اتاق"]⟩,
   ⟨"towel", ["towel", "towels"], ["serviette", "serviettes"], ["handtuch", "handtücher", "handtuecher"], ["حوله"]⟩,
   ⟨"extra pillow", ["extra pillow"], ["oreiller supplementaire", "oreiller supplémentaire"], ["extra kissen"], ["بالش اضافه"]⟩,
   ⟨"invoice", ["invoice"], ["facture"], ["rechnung"], ["فاکتور"]⟩,
   ⟨"hotel reception", ["hotel reception", "front desk"], ["reception hotel", "réception hôtel"], ["rezeption"], ["پذیرش هتل"]⟩,
   ⟨"smartphone", ["smartphone", "mobile phone"], ["smartphone"], ["smartphone", "handy"], ["گوشی هوشمند", "موبایل"]⟩,
   ⟨"sim card", ["sim card", "sim"], ["carte sim"], ["sim karte", "sim-karte"], ["سیم کارت"]⟩,
   ⟨"charger", ["charger"], ["chargeur"], ["ladegerät", "ladegeraet"], ["شارژر"]⟩,
   ⟨"cable", ["cable"], ["cable", "câble"], ["kabel"], ["کابل"]⟩,
   ⟨"case", ["phone case", "case"], ["coque"], ["hülle", "huelle"], ["قاب گوشی"]⟩,
   ⟨"screen protector", ["screen protector"], ["protection ecran", "protection d ecran", "protection d’écran"], ["schutzfolie"], ["محافظ صفحه", "گلس"]⟩,
   ⟨"electronics store", ["phone shop", "electronics store"], ["magasin de telephones", "magasin de téléphones"], ["handy laden", "handyladen"], ["فروشگاه موبایل"]⟩,
   ⟨"parcel", ["parcel", "package"], ["colis"], ["paket"], ["بسته پستی"]⟩,
   ⟨"letter", ["letter", "mail"], ["lettre"], ["brief"], ["نامه"]⟩,
   ⟨"stamp", ["stamps", "stamp"], ["timbres", "timbre"], ["briefmarken", "briefmarke"], ["تمبر"]⟩,
   ⟨"label", ["label"], ["etiquette", "étiquette"], ["etikett"], ["برچسب"]⟩,
   ⟨"registered", ["registered mail"], ["recommande", "recommandé"], ["einschreiben"], ["سفارشی"]⟩,
   ⟨"express delivery", ["express delivery"], ["livraison express"], ["expresslieferung"], ["پست پیشتاز"]⟩,
   ⟨"post office interior", ["post office"], ["poste"], ["post"], ["اداره پست"]⟩]

/-- The `QUERY_TEMPLATES` table (video_utils.py lines 251-347): canonical
key → (query template, optional pixabay category). -/
def QUERY_TEMPLATES : List (String × String × Option String) :=
  [("espresso", "espresso coffee cup", some "food"),
   ("americano", "americano coffee", some "food"),
   ("cappuccino", "cappuccino with latte art", some "food"),
   ("latte", "cafe latte cup", some "food"),
   ("flat white", "flat white coffee", some "food"),
   ("black coffee", "black coffee cup", some "food"),
   ("green tea", "green tea cup", some "food"),
   ("herbal tea", "herbal tea cup", some "food"),
   ("hot chocolate", "hot chocolate mug", some "food"),
   ("croissant", "croissant pastry on plate", some "food"),
   ("sandwich", "sandwich on wooden board", some "food"),
   ("menu", "restaurant menu on table", some "food"),
   ("bill", "restaurant bill on table", some "food"),
   ("receipt", "receipt on table", some "food"),
   ("cough syrup", "cough syrup bottle pharmacy shelf", some "health"),
   ("pain tablets", "pain relief tablets blister pack", some "health"),
   ("nasal spray", "nasal spray bottle", some "health"),
   ("thermometer", "digital thermometer", some "health"),
   ("vitamins", "vitamin pills bottle", some "health"),
   ("pharmacy interior", "pharmacy interior shelves", some "health"),
   ("passport", "passport on airport counter", some "travel"),
   ("boarding pass", "boarding pass at airport", some "travel"),
   ("check in desk", "airport check-in counter", some "travel"),
   ("gate", "airport gate sign", some "travel"),
   ("carry on bag", "carry on bag at airport", some "travel"),
   ("suitcase", "traveler with suitcase in airport", some "travel"),
   ("airport interior", "modern airport interior", some "travel"),
   ("bank account", "bank counter opening account", some "business"),
   ("debit card", "credit debit card closeup", some "business"),
   ("pin code", "entering pin at atm keypad", some "business"),
   ("bank transfer", "online banking transfer screen", some "business"),
   ("online banking", "online banking smartphone app", some "business"),
   ("bank interior", "bank interior counter", some "business"),
   ("jacket", "jacket on hanger clothing store", some "fashion"),
   ("shirt", "men shirt on hanger", some "fashion"),
   ("trousers", "trousers on rack", some "fashion"),
   ("dress", "dress on mannequin", some "fashion"),
   ("shoes", "shoes display in store", some "fashion"),
   ("belt", "leather belt display", some "fashion"),
   ("fitting room", "fitting room clothing store", some "fashion"),
   ("cashier", "cashier counter store", some "fashion"),
   ("clothing store interior", "clothing store interior", some "fashion"),
   ("bus stop", "city bus stop", some "transportation"),
   ("park", "city park path", some "places"),
   ("map", "tourist reading city map", some "people"),
   ("street", "city street view", some "places"),
   ("square", "town square plaza", some "places"),
   ("bridge", "city bridge over river", some "places"),
   ("hotel exterior", "hotel exterior entrance", some "travel"),
   ("fever", "fever thermometer patient", some "health"),
   ("cough", "woman coughing medical", some "health"),
   ("sore throat", "sore throat patient doctor", some "health"),
   ("stomach ache", "stomach ache person", some "health"),
   ("prescription", "doctor writing prescription", some "health"),
   ("clinic interior", "clinic waiting room", some "health"),
   ("reservation", "hotel reservation at reception", some "travel"),
   ("check in", "hotel check-in reception desk", some "travel"),
   ("key card", "hotel key card at reception", some "travel"),
   ("towel", "two towels on bed hotel", some "travel"),
   ("extra pillow", "extra pillow on bed", some "travel"),
   ("invoice", "invoice receipt hotel", some "business"),
   ("hotel reception", "hotel reception front desk", some "travel"),
   ("smartphone", "smartphone display in store", some "computer"),
   ("sim card", "sim card on hand", some "computer"),
   ("charger", "phone charger on table", some "computer"),
   ("cable", "usb cable closeup", some "computer"),
   ("case", "phone case wall display", some "computer"),
   ("screen protector", "installing screen protector", some "computer"),
   ("electronics store", "electronics store interior", some "computer"),
   ("parcel", "sending parcel at post office", some "business"),
   ("letter", "writing letter envelope", some "business"),
   ("stamp", "postage stamps", some "business"),
   ("label", "shipping label closeup", some "business"),
   ("registered", "registered mail counter", some "business"),
   ("express delivery", "express delivery package", some "transportation"),
   ("post office interior", "post office counter interior", some "business")]

/-- Modifier phrases ignored by the query builder (video_utils.py lines
350-360), in declaration order (the source iterates them as a Python set;
the properties proved below are insensitive to the order). -/
def MODIFIER_PHRASES : List String :=
  ["with milk", "without milk", "no milk", "milk",
   "with sugar", "without sugar", "no sugar", "sugar",
   "with ice", "without ice", "no ice", "ice",
   "soy milk", "oat milk", "almond milk", "lactose free", "gluten free",
   "small size", "medium size", "large size", "extra hot", "less hot",
   "with warranty", "without contract", "more storage", "online banking",
   "no monthly fee", "with priority", "with a tag", "without liquids",
   "for children", "for adults", "sans sucre", "ohne zucker", "بدون شکر",
   "blue", "black", "white", "large", "medium", "small"]

/-! ### Core matching logic (`video_utils.py`, lines 418-513) -/

/-- Word character, approximating regex `\w` (in the normalized ASCII text
handled by the evaluated claims the two coincide). -/
def isWordChar (c : Char) : Bool := c.isAlphanum

/-- True when the list is empty or starts with a non-word character. -/
def headNonWord : List Char → Bool
  | [] => true
  | c :: _ => !isWordChar c

/-- Scan for the earliest whole-word occurrence (regex search for
`\b v \b`) of `v`, given whether the previous character was a word
character and the current position. -/
def wwFirstAux (v : List Char) : Bool → List Char → Nat → Option Nat
  | _, [], _ => none
  | prevWord, c :: rest, pos =>
    if !prevWord && v.isPrefixOf (c :: rest) && headNonWord ((c :: rest).drop v.length) then
      some pos
    else wwFirstAux v (isWordChar c) rest (pos + 1)

/-- Earliest whole-word match offset of `v` in `j`
(`re.search(rf"\b{re.escape(v)}\b", j)`). -/
def wwFirst (v j : List Char) : Option Nat :=
  wwFirstAux v false j 0

/-- Substring containment, Python `needle in hay`. -/
def containsSub (needle : List Char) : List Char → Bool
  | [] => needle.isPrefixOf []
  | c :: rest => needle.isPrefixOf (c :: rest) || containsSub needle rest

/-- Python `str.replace(pat, rep)`: replace non-overlapping occurrences
left to right. -/
def replaceAll (pat rep : List Char) (s : List Char) : List Char :=
  if h : pat ≠ [] ∧ pat.isPrefixOf s then rep ++ replaceAll pat rep (s.drop pat.length)
  else
    match s with
    | [] => []
    | c :: rest => c :: replaceAll pat rep rest
termination_by s.length
decreasing_by
· simp only [List.length_drop]
  have hle : pat.length ≤ s.length :=
    (List.isPrefixOf_iff_prefix.mp h.2).length_le
  have hpos : 0 < pat.length := List.length_pos.mpr h.1
  omega
· simp +arith

/-- Language code normalization `lang.split("-")[0][:2]`
(video_utils.py line 434). -/
def langCode (lang : String) : String :=
  String.mk ((lang.data.takeWhile (fun c => c ≠ '-')).take 2)

/-- Candidate surface forms of a lexicon entry for a language: the entry's
list for the code plus, for non-English codes, the English list as a
bridge (video_utils.py lines 433-437). -/
def entryVlist (code : String) (e : LexEntry) : List String :=
  e.get code ++ (if code ≠ "en" then e.en else [])

/-- Pass-1 membership test of `_detect_candidates` (video_utils.py lines
438-444): some variant, once normalized, has a non-empty whole-word match
in the joined token string. -/
def entryMatchesP1 (joined : List Char) (code : String) (e : LexEntry) : Bool :=
  (entryVlist code e).any (fun v =>
    let vn := normalizeList v.data
    !vn.isEmpty && (wwFirst vn joined).isSome)

/-- Pass-2 best fuzzy similarity of `_detect_candidates` (video_utils.py
lines 449-462): the maximum trigram similarity between any sentence token
and any normalized variant. -/
def entryBestSim (tokens : List String) (code : String) (e : LexEntry) : ℚ :=
  (entryVlist code e).foldl
    (fun best v =>
      let vn := normalizeList v.data
      tokens.foldl (fun b tok => max b (_tri_sim tok.data vn)) best)
    0

/-- Unsorted hit list of `_detect_candidates`: pass-1 whole-word hits in
lexicon declaration order, else (when pass 1 is empty) pass-2 fuzzy hits
with best similarity ≥ 0.62, also in declaration order. -/
def _detect_candidates_hits (text lang : String) : List String :=
  let tokens := _tokenize text lang
  let joined := List.intercalate [' '] (tokens.map String.data)
  let code := langCode lang
  let p1 := (LEXICON.filter (entryMatchesP1 joined code)).map LexEntry.canonical
  if p1.isEmpty then
    (LEXICON.filter (fun e => (62 : ℚ) / 100 ≤ entryBestSim tokens code e)).map
      LexEntry.canonical
  else p1

/-- Lookup of `LEXICON[key]`. -/
def lexLookup (key : String) : Option LexEntry :=
  LEXICON.find? (fun e => e.canonical = key)

/-- The sort key `first_idx` of `_detect_candidates` (video_utils.py lines
465-474): the whole-word match offset of the first matching phrase among
the language's variants followed by the English variants, or `10^9`. -/
def first_idx (joined : List Char) (code : String) (key : String) : Nat :=
  match lexLookup key with
  | none => 10 ^ 9
  | some e =>
    (e.get code ++ e.en).foldr
      (fun p acc =>
        match wwFirst (normalizeList p.data) joined with
        | some i => i
        | none => acc)
      (10 ^ 9)

/-- The sort key of `_detect_candidates` as a function of the sentence
and language: `first_idx` over the joined token string. -/
def matcher_key (text lang key : String) : Nat :=
  first_idx (List.intercalate [' '] ((_tokenize text lang).map String.data))
    (langCode lang) key

/-- The Lexicon Matcher `_detect_candidates` (video_utils.py lines
427-475).  The source's final step is `sorted(set(hits), key=first_idx)`;
the iteration order of the Python hash set is unspecified, so it is passed
in as `setOrder` (the Python behaviour corresponds to `setOrder` being
some permutation of the deduplicated hit list).  Python's stable `sorted`
is modelled by `List.insertionSort`, which is likewise stable. -/
def _detect_candidates (setOrder : List String → List String) (text lang : String) :
    List String :=
  List.insertionSort
    (fun a b => matcher_key text lang a ≤ matcher_key text lang b)
    (setOrder (_detect_candidates_hits text lang))

/-- Modifier/negator cleanup `_clean_modifiers` (video_utils.py lines
418-425). -/
def _clean_modifiers (text : String) : String :=
  let t0 := normalizeList text.data
  let t1 := MODIFIER_PHRASES.foldl (fun t m => replaceAll (normalizeList m.data) [' '] t) t0
  let t2 := NEGATORS.foldl (fun t n => replaceAll (' ' :: (n.data ++ [' '])) [' '] t) t1
  String.mk (List.intercalate [' '] (splitWsAux [] t2))

/-- Domain classification `_classify` (video_utils.py lines 477-498). -/
def _classify (canonical : String) : String :=
  if ["espresso", "americano", "cappuccino", "latte", "flat white", "black coffee",
      "green tea", "herbal tea", "hot chocolate", "croissant", "sandwich"].contains canonical
  then "food"
  else if ["passport", "boarding pass", "check in desk", "gate", "carry on bag",
           "suitcase", "airport interior"].contains canonical then "airport"
  else if ["cough syrup", "pain tablets", "nasal spray", "thermometer", "vitamins",
           "clinic interior", "pharmacy interior"].contains canonical then "pharmacy"
  else if ["bank account", "debit card", "pin code", "bank transfer", "online banking",
           "bank interior"].contains canonical then "bank"
  else if ["jacket", "shirt", "trousers", "dress", "shoes", "belt", "fitting room",
           "cashier", "clothing store interior"].contains canonical then "clothing"
  else if ["bus stop", "park", "map", "street", "square", "bridge",
           "hotel exterior"].contains canonical then "directions"
  else if ["fever", "cough", "sore throat", "stomach ache", "prescription",
           "clinic interior"].contains canonical then "doctor"
  else if ["reservation", "check in", "key card", "towel", "extra pillow", "invoice",
           "hotel reception"].contains canonical then "hotel"
  else if ["smartphone", "sim card", "charger", "cable", "case", "screen protector",
           "electronics store"].contains canonical then "phone"
  else if ["parcel", "letter", "stamp", "label", "registered", "express delivery",
           "post office interior"].contains canonical then "post"
  else "generic"

/-- Domain anchor phrases `_domain_anchor` (video_utils.py lines 500-514). -/
def _domain_anchor (domain : String) : List String :=
  if domain = "food" then ["cafe interior", "coffee shop interior", "barista making coffee"]
  else if domain = "pharmacy" then ["pharmacy interior shelves", "medicine counter pharmacy"]
  else if domain = "airport" then ["modern airport interior", "airport departure hall"]
  else if domain = "bank" then ["bank counter interior", "atm machine"]
  else if domain = "clothing" then ["clothing store interior", "fashion display"]
  else if domain = "directions" then ["city street view", "town square plaza"]
  else if domain = "doctor" then ["clinic waiting room", "doctor with patient"]
  else if domain = "hotel" then ["hotel reception front desk", "hotel lobby"]
  else if domain = "phone" then ["electronics store interior", "phone shop display"]
  else if domain = "post" then ["post office counter", "mail shipping counter"]
  else ["people indoors", "object closeup"]

/-- Farsi character class of `guess_lang` (video_utils.py line 111). -/
def FA_CHARS : List Char :=
  "اآبپتثجچحخدذرزژسشصضطظعغفقکگلمنوهی".data

/-- Language guesser `guess_lang` (video_utils.py lines 109-117). -/
def guess_lang (text : String) : String :=
  if text.data.any (fun c => FA_CHARS.contains c) then "fa"
  else
    let tl := text.data.map Char.toLower
    if ([" le ", " la ", " les ", " une ", " un ", " je ", "vous ",
         String.mk ['s', Char.ofNat 39, 'i', 'l', ' ']].any
          (fun w => containsSub w.data tl)) then "fr"
    else if ([" der ", " die ", " das ", " ich ", " bitte ", "karte "].any
          (fun w => containsSub w.data tl)) then "de"
    else "en"

/-! ### Query builder (`video_utils.py`, lines 516-613)

`_scenario_hints_for` reads corpus files from disk into a process-wide
cache; it is passed in as the `hints` parameter.  The hash-set iteration
order of `sorted(set(hits), ...)` is the `setOrder` parameter, as in
`_detect_candidates`. -/

/-- Lookup in `QUERY_TEMPLATES` with an explicit default,
Python `QUERY_TEMPLATES.get(key, dflt)`. -/
def queryTemplateGetD (dflt : String × Option String) (key : String) : String × Option String :=
  match QUERY_TEMPLATES.find? (fun e => e.1 = key) with
  | some e => e.2
  | none => dflt

/-- The keyword → domain heuristic table of `sentence_to_query`
(video_utils.py lines 530-540), in declaration order. -/
def KEYWORD_DOMAINS : List (String × String) :=
  [("airport", "airport"), ("gate", "airport"), ("boarding", "airport"),
   ("passport", "airport"),
   ("bank", "bank"), ("transfer", "bank"), ("pin", "bank"),
   ("parcel", "post"), ("post", "post"), ("stamp", "post"),
   ("pharmacy", "pharmacy"), ("thermometer", "pharmacy"), ("vitamin", "pharmacy"),
   ("hotel", "hotel"), ("towel", "hotel"), ("pillow", "hotel"),
   ("sim", "phone"), ("smartphone", "phone"), ("charger", "phone"),
   ("jacket", "clothing"), ("dress", "clothing"), ("belt", "clothing"),
   ("shoes", "clothing"),
   ("bridge", "directions"), ("map", "directions"), ("street", "directions"),
   ("fever", "doctor"), ("cough", "doctor"), ("throat", "doctor")]

/-- Primary query derivation `sentence_to_query` (video_utils.py lines
516-550), with `max_words` fixed to its default
`NLPConfig.MAX_QUERY_TOKENS = 6`. -/
def sentence_to_query (setOrder : List String → List String)
    (hints : String → List String) (text lang : String) : String :=
  let auto := if lang ≠ "" ∧ lang ≠ "auto" then lang else guess_lang text
  let text_norm := _clean_modifiers text
  let tokens := _tokenize text_norm auto
  let hits := _detect_candidates setOrder text_norm auto
  if hits.isEmpty then
    let informative := tokens.take 6
    let heur := List.intercalate [' '] (tokens.map String.data)
    let domain_guess :=
      match KEYWORD_DOMAINS.find? (fun kd => containsSub kd.1.data heur) with
      | some kd => kd.2
      | none => "generic"
    let anchors := _domain_anchor domain_guess
    let hs := hints domain_guess
    let phrase :=
      stripList (List.intercalate [' '] ((informative ++ anchors.take 1).map String.data))
    let phrase2 :=
      if !hs.isEmpty then
        if !phrase.isEmpty then phrase ++ ' ' :: (hs.headD "").data else (hs.headD "").data
      else phrase
    if !phrase2.isEmpty then String.mk phrase2 else anchors.headD ""
  else (queryTemplateGetD (hits.headD "", none) (hits.headD "")).1

/-- The dedup key `(q.strip().lower(), cat)` of one query pair
(video_utils.py line 607). -/
def planKey (p : String × Option String) : String × Option String :=
  ((String.mk (stripList p.1.data)).toLower, p.2)

/-- The dedup/cap loop at the end of `sentence_to_query_extras`
(video_utils.py lines 604-612): admit a pair when its `planKey` is new
and `q.strip()` is non-empty; stop as soon as `1 + MAX_FALLBACKS` pairs
are admitted.  `budget` is the remaining capacity. -/
def dedupCapAux (seen : List (String × Option String)) (budget : Nat) :
    List (String × Option String) → List (String × Option String)
  | [] => []
  | (q, cat) :: rest =>
    if budget = 0 then []
    else if planKey (q, cat) ∉ seen ∧ stripList q.data ≠ [] then
      (q, cat) :: dedupCapAux (planKey (q, cat) :: seen) (budget - 1) rest
    else dedupCapAux seen budget rest

/-- Append an element unless the list already contains it, the
`if x not in pairs: pairs.append(x)` idiom. -/
def appendIfAbsent (l : List (String × Option String)) (x : String × Option String) :
    List (String × Option String) :=
  if x ∈ l then l else l ++ [x]

/-- Intermediate pair list built by `sentence_to_query_extras`
(video_utils.py lines 576-602) before deduplication: the primary query,
alternates for up to three hits, the ASCII-token literal query, the
anchor- and hint-derived queries (prefixed by the literal tokens), and the
plain anchor/hint queries. -/
def query_extras_pairs (setOrder : List String → List String)
    (hints : String → List String) (text lang : String) :
    List (String × Option String) × Option String :=
  let auto := if lang ≠ "" ∧ lang ≠ "auto" then lang else guess_lang text
  let primary := sentence_to_query setOrder hints text auto
  let tokens := _tokenize (_clean_modifiers text) auto
  let hits := _detect_candidates setOrder
      (String.mk (List.intercalate [' '] (tokens.map String.data))) auto
  let pcatDomain : Option String × String :=
    if !hits.isEmpty then
      let first := hits.headD ""
      ((queryTemplateGetD (primary, none) first).2, _classify first)
    else
      (none,
        if ["passport", "gate", "airport", "boarding"].any tokens.contains then "airport"
        else if ["pharmacy", "thermometer", "vitamin"].any tokens.contains then "pharmacy"
        else if ["bank", "transfer", "pin"].any tokens.contains then "bank"
        else if ["jacket", "dress", "belt", "shoes", "fitting"].any tokens.contains then "clothing"
        else if ["bus", "bridge", "street", "map", "square"].any tokens.contains then "directions"
        else if ["fever", "cough", "throat", "stomach"].any tokens.contains then "doctor"
        else if ["hotel", "towel", "pillow", "invoice"].any tokens.contains then "hotel"
        else if ["sim", "smartphone", "charger", "cable", "case"].any tokens.contains then "phone"
        else if ["parcel", "stamp", "post"].any tokens.contains then "post"
        else "generic")
  let pcat := pcatDomain.1
  let domain := pcatDomain.2
  let pairs0 : List (String × Option String) := [(primary, pcat)]
  let pairs1 := (hits.take 3).foldl
      (fun ps c => appendIfAbsent ps (queryTemplateGetD (c, pcat) c)) pairs0
  let eng_like := List.intercalate [' ']
      ((tokens.filter (fun w =>
          !w.data.isEmpty &&
          w.data.all (fun c => ('a' ≤ c && c ≤ 'z') || ('0' ≤ c && c ≤ '9')))).map
        String.data)
  let pairs2 :=
    if eng_like ≠ [] ∧ (String.mk eng_like, pcat) ∉ pairs1 then
      pairs1 ++ [(String.mk eng_like, pcat)]
    else pairs1
  let anchors := _domain_anchor domain
  let hs := hints domain
  let mkq : String → String := fun a =>
    if !eng_like.isEmpty then String.mk (stripList (eng_like ++ ' ' :: a.data)) else a
  let pairs3 := anchors.foldl (fun ps a => appendIfAbsent ps (mkq a, pcat)) pairs2
  let pairs4 := (hs.take 3).foldl (fun ps h2 => appendIfAbsent ps (mkq h2, pcat)) pairs3
  let pairs5 := (anchors ++ hs).foldl (fun ps q => appendIfAbsent ps (q, pcat)) pairs4
  (pairs5, pcat)

/-- Query Plan builder `sentence_to_query_extras` (video_utils.py lines
552-613): the deduplicated pair list, capped at `1 + MAX_FALLBACKS = 9`
entries, plus the primary category. -/
def sentence_to_query_extras (setOrder : List String → List String)
    (hints : String → List String) (text lang : String) :
    List (String × Option String) × Option String :=
  let pp := query_extras_pairs setOrder hints text lang
  (dedupCapAux [] (1 + 8) pp.1, pp.2)

/-! ### Ranking and scoring (`video_utils.py`, lines 652-724 and 761-815)

Python `float` arithmetic is modelled over `ℚ`.  Token *sets* are
modelled as first-occurrence deduplicated lists; the only place their
iteration order matters is the trigram join inside `_score_hit`, whose
value is threshold-compared, and the hypotheses of the theorems below pin
the relevant branch. -/

/-- Python `s.split(",")` (keeps empty pieces). -/
def splitOnCommaAux (acc : List Char) : List Char → List (List Char)
  | [] => [acc.reverse]
  | c :: rest =>
    if c = ',' then acc.reverse :: splitOnCommaAux [] rest
    else splitOnCommaAux (c :: acc) rest

/-- Tag token set of `_score_hit` (video_utils.py lines 653-656): the
normalized tag string is split on commas, each piece normalized again and
split on whitespace, and the words collected into a set. -/
def tagTokensOf (tags : String) : List String :=
  ((splitOnCommaAux [] (normalizeList tags.data)).map
      (fun p => (splitWsAux [] (normalizeList p)).map String.mk)).flatten.dedup

/-- Query token set of `_score_hit` (video_utils.py line 657): raw query
tokens of length > 2, as a set. -/
def rqOf (raw_query_tokens : List String) : List String :=
  (raw_query_tokens.filter (fun w => 2 < w.length)).dedup

/-- The overlap factor of `_score_hit` (video_utils.py line 660):
`len(tag_tokens ∩ rq) / max(1, len(rq))`. -/
def overlapVal (tags : String) (raw_query_tokens : List String) : ℚ :=
  let tt := tagTokensOf tags
  let rq := rqOf raw_query_tokens
  ((tt.filter rq.contains).length : ℚ) / ((max 1 rq.length : Nat) : ℚ)

/-- The trigram similarity of `_score_hit` (video_utils.py lines 661-663)
between the joined tag-token set and the joined query-token set. -/
def triVal (tags : String) (raw_query_tokens : List String) : ℚ :=
  let tt := tagTokensOf tags
  let rq := rqOf raw_query_tokens
  if !rq.isEmpty then
    max (_tri_sim (List.intercalate [' '] (tt.map String.data))
          (List.intercalate [' '] (rq.map String.data))) 0
  else 0

/-- Relevance score `_score_hit` (video_utils.py lines 652-665): 0 when
there are no tag tokens, else the overlap multiplied by `1 + tri` when the
trigram similarity reaches the 0.25 tag threshold. -/
def _score_hit (tags : String) (raw_query_tokens : List String) : ℚ :=
  if (tagTokensOf tags).isEmpty then 0
  else
    overlapVal tags raw_query_tokens *
      (1 + (if (25 : ℚ) / 100 ≤ triVal tags raw_query_tokens
            then triVal tags raw_query_tokens else 0))

/-- Domain keyword boost `_domain_keyword_boost` (video_utils.py lines
667-677), by substring containment on the lowercased text. -/
def _domain_keyword_boost (text : String) : ℚ :=
  let t := text.data.map Char.toLower
  if ["airport", "gate", "boarding", "passport"].any (fun k => containsSub k.data t) then 11 / 10
  else if ["pharmacy", "medicine", "clinic"].any (fun k => containsSub k.data t) then 11 / 10
  else if ["bank", "atm", "finance"].any (fun k => containsSub k.data t) then 27 / 25
  else if ["hotel", "reception", "lobby", "towel"].any (fun k => containsSub k.data t) then 27 / 25
  else if ["clothing", "fashion", "fitting room", "dress", "jacket"].any
      (fun k => containsSub k.data t) then 27 / 25
  else if ["post", "mail", "shipping", "stamp"].any (fun k => containsSub k.data t) then 27 / 25
  else if ["coffee", "cafe", "tea"].any (fun k => containsSub k.data t) then 21 / 20
  else if ["street", "bridge", "map", "square"].any (fun k => containsSub k.data t) then 21 / 20
  else 1

/-- First truthy string among the options, the Python `a or b or ...`
idiom applied to optional strings followed by `if not src: continue`. -/
def firstTruthy : List (Option String) → Option String
  | [] => none
  | some s :: rest => if s ≠ "" then some s else firstTruthy rest
  | none :: rest => firstTruthy rest

/-- A Pixabay API hit, reduced to the fields `_pixabay_ranked` reads. -/
structure PixHit where
  largeImageURL : Option String
  webformatURL : Option String
  tags : String
  type : String
deriving Repr, DecidableEq

/-- An Unsplash API result, reduced to the fields `_unsplash_ranked`
reads. -/
structure UnsHit where
  urls_regular : Option String
  urls_full : Option String
  urls_raw : Option String
  tag_titles : List String
  alt_description : Option String
  description : Option String
  likes : Int
deriving Repr, DecidableEq

/-- A ranked image candidate, as assembled by the two rankers. -/
structure RankedItem where
  provider : String
  score : ℚ
  src : String
  tags : String
deriving Repr, DecidableEq

/-- Score of one Pixabay hit (video_utils.py lines 705-714):
`_score_hit` on the query tokens, the domain keyword boost, and the 1.05
photo-type factor. -/
def pixabay_score (query : String) (tags typ : String) : ℚ :=
  let raw := _tokenize (_normalize_text query) "en"
  _score_hit tags raw * _domain_keyword_boost tags *
    (if typ = "photo" then 21 / 20 else 1)

/-- Post-HTTP part of `_pixabay_ranked` (video_utils.py lines 705-724):
keep hits with a source URL, score them, and sort by descending score
(stable, like Python's `list.sort`). -/
def _pixabay_ranked (query : String) (hits : List PixHit) : List RankedItem :=
  let items := hits.filterMap (fun h =>
    match firstTruthy [h.largeImageURL, h.webformatURL] with
    | none => none
    | some src => some ⟨"pixabay", pixabay_score query h.tags h.type, src, h.tags⟩)
  List.insertionSort (fun a b => b.score ≤ a.score) items

/-- Combined tag/description text of an Unsplash result (video_utils.py
lines 788-793). -/
def unsHitTags (h : UnsHit) : String :=
  let tag_text := String.mk (List.intercalate [','] (h.tag_titles.map String.data))
  let parts := ([tag_text, h.alt_description.getD "", h.description.getD ""].filter
    (fun s => s ≠ ""))
  String.mk (List.intercalate [','] (parts.map String.data))

/-- Score of one Unsplash result (video_utils.py lines 795-798):
`_score_hit`, the domain keyword boost, and the saturating popularity
boost `1 + min(likes, 200) / 500`. -/
def unsplash_score (query : String) (tags : String) (likes : Int) : ℚ :=
  let raw := _tokenize (_normalize_text query) "en"
  _score_hit tags raw * _domain_keyword_boost tags *
    (1 + ((min likes 200 : Int) : ℚ) / 500)

/-- Post-HTTP part of `_unsplash_ranked` (video_utils.py lines 780-815). -/
def _unsplash_ranked (query : String) (hits : List UnsHit) : List RankedItem :=
  let items := hits.filterMap (fun h =>
    match firstTruthy [h.urls_regular, h.urls_full, h.urls_raw] with
    | none => none
    | some src =>
      some ⟨"unsplash", unsplash_score query (unsHitTags h) h.likes, src, unsHitTags h⟩)
  List.insertionSort (fun a b => b.score ≤ a.score) items

/-- Merge step `_search_both_ranked` (video_utils.py lines 833-848): both
providers' candidate lists concatenated and re-sorted by descending
score. -/
def _search_both_ranked (query : String) (pixHits : List PixHit) (unsHits : List UnsHit) :
    List RankedItem :=
  List.insertionSort (fun a b => b.score ≤ a.score)
    (_pixabay_ranked query pixHits ++ _unsplash_ranked query unsHits)

/-- The download walk of `search_and_download_best` (video_utils.py lines
859-873): skip source URLs already seen, attempt a download for each new
one (`ok` tells whether `_download_image` succeeds), collect successes,
and stop once `n` downloads are obtained.  Returns the list of source
URLs for which a download was attempted, and the successful ones. -/
def download_walk (ok : String → Bool) (n : Nat) :
    List String → List String → List RankedItem → List String × List String
  | _, out, [] => ([], out)
  | seen, out, item :: rest =>
    if item.src ∈ seen then download_walk ok n seen out rest
    else
      let out2 := if ok item.src then out ++ [item.src] else out
      if n ≤ out2.length then ([item.src], out2)
      else
        let res := download_walk ok n (item.src :: seen) out2 rest
        (item.src :: res.1, res.2)

/-- Visual Resolver entry point `search_and_download_best`
(video_utils.py lines 850-873), for one query: merge both rankings and
walk the result.  First component: attempted (i.e. downloaded) source
URLs; second: sources whose download succeeded. -/
def search_and_download_best (ok : String → Bool) (n : Nat) (query : String)
    (pixHits : List PixHit) (unsHits : List UnsHit) : List String × List String :=
  download_walk ok n [] [] (_search_both_ranked query pixHits unsHits)

/-- Grid snap applied to one cue, main.py lines 770-772. -/
def snap_cue (c : Cue) : Cue :=
  { c with start_ms := round_to_ass_grid c.start_ms, end_ms := round_to_ass_grid c.end_ms }

/-! ## Helper lemmas -/

/-- The primary/secondary window is nonnegative for a nonnegative repeat
count. -/
theorem primary_window_nonneg (rep : Int) (dur gapRep : Nat) (h : 0 ≤ rep) :
    0 ≤ primary_window rep dur gapRep := by
  unfold primary_window
  have h1 : 0 ≤ rep * (dur : Int) := mul_nonneg h (Int.natCast_nonneg _)
  have h2 : 0 ≤ max 0 (rep - 1) * (gapRep : Int) :=
    mul_nonneg (le_max_left _ _) (Int.natCast_nonneg _)
  omega

/-- Every cue emitted from cursor `t` starts no earlier than `t` and has
`end_ms ≥ start_ms`. -/
theorem build_from_bounds (tts : String → String → Nat) (cfg : DraftConfig)
    (hp : 1 ≤ cfg.pRep) (hs : 1 ≤ cfg.sRep) :
    ∀ (l : List Triple) (t : Int), ∀ c ∈ build_draft_cues_from tts cfg t l,
      t ≤ c.start_ms ∧ c.start_ms ≤ c.end_ms := by
  intro l
  induction l with
  | nil => intro t c hc; simp [build_draft_cues_from] at hc
  | cons tr rest ih =>
    intro t c hc
    have hw1 : 0 ≤ primary_window cfg.pRep (tts tr.primary cfg.pLang) cfg.gapRep :=
      primary_window_nonneg _ _ _ (by omega)
    have hw2 : 0 ≤ primary_window cfg.sRep (tts tr.secondary cfg.sLang) cfg.gapRep :=
      primary_window_nonneg _ _ _ (by omega)
    have hgap : (0 : Int) ≤ ((max cfg.gapSent 1700 : Nat) : Int) := Int.natCast_nonneg _
    have hgap2 : (0 : Int) ≤ ((cfg.gapSent : Nat) : Int) := Int.natCast_nonneg _
    simp only [build_draft_cues_from] at hc
    split_ifs at hc with hb
    · simp only [List.mem_cons] at hc
      rcases hc with rfl | rfl | hc
      · constructor <;> simp <;> omega
      · constructor <;> simp <;> omega
      · have := ih _ c hc
        constructor <;> omega
    · simp only [List.mem_cons] at hc
      rcases hc with rfl | hc
      · constructor <;> simp <;> omega
      · have := ih _ c hc
        constructor <;> omega

/-- The cue list emitted from any cursor is sorted by `start_ms`. -/
theorem build_from_pairwise (tts : String → String → Nat) (cfg : DraftConfig)
    (hp : 1 ≤ cfg.pRep) (hs : 1 ≤ cfg.sRep) :
    ∀ (l : List Triple) (t : Int),
      List.Pairwise (fun a b : Cue => a.start_ms ≤ b.start_ms)
        (build_draft_cues_from tts cfg t l) := by
  intro l
  induction l with
  | nil => intro t; simp [build_draft_cues_from]
  | cons tr rest ih =>
    intro t
    have hw1 : 0 ≤ primary_window cfg.pRep (tts tr.primary cfg.pLang) cfg.gapRep :=
      primary_window_nonneg _ _ _ (by omega)
    have hw2 : 0 ≤ primary_window cfg.sRep (tts tr.secondary cfg.sLang) cfg.gapRep :=
      primary_window_nonneg _ _ _ (by omega)
    have hgap : (0 : Int) ≤ ((max cfg.gapSent 1700 : Nat) : Int) := Int.natCast_nonneg _
    have hgap2 : (0 : Int) ≤ ((cfg.gapSent : Nat) : Int) := Int.natCast_nonneg _
    simp only [build_draft_cues_from]
    split_ifs with hb
    · refine List.pairwise_cons.mpr ⟨?_, List.pairwise_cons.mpr ⟨?_, ih _⟩⟩
      · intro c hc
        simp only [List.mem_cons] at hc
        rcases hc with rfl | hc
        · simp; omega
        · have := (build_from_bounds tts cfg hp hs rest _ c hc).1
          simp only []
          omega
      · intro c hc
        have := (build_from_bounds tts cfg hp hs rest _ c hc).1
        simp only []
        omega
    · refine List.pairwise_cons.mpr ⟨?_, ih _⟩
      intro c hc
      have := (build_from_bounds tts cfg hp hs rest _ c hc).1
      simp only []
      omega

/-- Primary-cue window formula from any cursor. -/
theorem build_from_primary_window (tts : String → String → Nat) (cfg : DraftConfig)
    (hp : 1 ≤ cfg.pRep) :
    ∀ (l : List Triple) (t : Int), ∀ c ∈ build_draft_cues_from tts cfg t l,
      c.is_primary = true →
      c.end_ms - c.start_ms =
        cfg.pRep * (tts c.text cfg.pLang : Int) + (cfg.pRep - 1) * (cfg.gapRep : Int) := by
  intro l
  induction l with
  | nil => intro t c hc; simp [build_draft_cues_from] at hc
  | cons tr rest ih =>
    intro t c hc hcp
    have hmax : max 0 (cfg.pRep - 1) = cfg.pRep - 1 := max_eq_right (by omega)
    simp only [build_draft_cues_from] at hc
    split_ifs at hc with hb
    · simp only [List.mem_cons] at hc
      rcases hc with rfl | rfl | hc
      · simp only [primary_window, hmax]; ring
      · simp at hcp
      · exact ih _ c hc hcp
    · simp only [List.mem_cons] at hc
      rcases hc with rfl | hc
      · simp only [primary_window, hmax]; ring
      · exact ih _ c hc hcp

/-- Rounding onto the 10 ms grid is monotone. -/
theorem round_to_ass_grid_mono {x y : Int} (h : x ≤ y) :
    round_to_ass_grid x ≤ round_to_ass_grid y := by
  unfold round_to_ass_grid
  rw [Int.fdiv_eq_ediv _ (by norm_num), Int.fdiv_eq_ediv _ (by norm_num)]
  have := @Int.ediv_le_ediv (x + 5) (y + 5) 10 (by norm_num) (by omega)
  omega

/-- The download walk never attempts a source URL twice, nor one already
seen. -/
theorem download_walk_attempts_nodup (ok : String → Bool) (n : Nat) :
    ∀ (ranked : List RankedItem) (seen out : List String),
      (download_walk ok n seen out ranked).1.Nodup ∧
      ∀ s ∈ (download_walk ok n seen out ranked).1, s ∉ seen := by
  intro ranked
  induction ranked with
  | nil => intro seen out; simp [download_walk]
  | cons item rest ih =>
    intro seen out
    have hsing : ∀ out2 : List String,
        (([item.src], out2) : List String × List String).1.Nodup ∧
        (item.src ∉ seen → ∀ s ∈ (([item.src], out2) : List String × List String).1,
          s ∉ seen) := by
      intro out2
      refine ⟨List.nodup_singleton _, ?_⟩
      intro hns s hs
      simp only [List.mem_singleton] at hs
      subst hs
      exact hns
    have hcons : ∀ out2 : List String,
        ((item.src :: (download_walk ok n (item.src :: seen) out2 rest).1,
            (download_walk ok n (item.src :: seen) out2 rest).2) :
          List String × List String).1.Nodup ∧
        (item.src ∉ seen →
          ∀ s ∈ ((item.src :: (download_walk ok n (item.src :: seen) out2 rest).1,
              (download_walk ok n (item.src :: seen) out2 rest).2) :
            List String × List String).1, s ∉ seen) := by
      intro out2
      constructor
      · refine List.nodup_cons.mpr ⟨?_, (ih _ _).1⟩
        intro hmem
        have := (ih (item.src :: seen) out2).2 _ hmem
        simp at this
      · intro hns s hs
        simp only [List.mem_cons] at hs
        rcases hs with rfl | hs
        · exact hns
        · have := (ih (item.src :: seen) out2).2 _ hs
          simp only [List.mem_cons] at this
          exact fun hseen => this (Or.inr hseen)
    simp only [download_walk]
    split_ifs with h1 h2 h3 h4 h5
    · exact ih seen out
    · exact ⟨(hsing _).1, (hsing _).2 h1⟩
    · exact ⟨(hcons _).1, (hcons _).2 h1⟩
    · exact ⟨(hsing _).1, (hsing _).2 h1⟩
    · exact ⟨(hcons _).1, (hcons _).2 h1⟩

/-! ## Claims -/

/-- C1 (amended): for every cue whose target duration `end_ms - start_ms`
is positive, the audio emitted for that cue by the final-audio builder is
exactly `end_ms - start_ms` milliseconds long, for any utterance length,
repeat count and inter-repeat gap: the repetition block is padded with
trailing silence when shorter than the target and truncated from the end
when longer.  (When the target is 0 the block is emitted unfitted, see
the counterexample.) -/
theorem cue_audio_exact_for_positive_target (tts : String → String → Nat)
    (pause_rep_ms : Int) (c : Cue) (h : c.start_ms < c.end_ms) :
    cue_emit_len tts pause_rep_ms c = (c.end_ms - c.start_ms).toNat := by
  have ht : 0 < cue_target_ms c := by unfold cue_target_ms; omega
  simp only [cue_emit_len, cue_target_ms] at *
  split_ifs <;> omega

/-- Witness for the amended C1 theorem at a concrete cue. -/
theorem cue_audio_exact_for_positive_target_witness :
    (⟨0, 4300, "x", "en", 2, true, []⟩ : Cue).start_ms <
      (⟨0, 4300, "x", "en", 2, true, []⟩ : Cue).end_ms ∧
    cue_emit_len (fun _ _ => 900) 2500 ⟨0, 4300, "x", "en", 2, true, []⟩ =
      ((4300 : Int) - 0).toNat :=
  ⟨by decide, cue_audio_exact_for_positive_target (fun _ _ => 900) 2500 _ (by decide)⟩

/-- C1 counterexample: a cue with `end_ms = start_ms = 0` (target
duration 0, which the claim's "any target duration ≥ 0" includes) whose
utterance synthesizes to 800 ms emits the full 800 ms repetition block,
not `end_ms - start_ms = 0` ms: the fit step is skipped when the target
is 0 (audio_utils.py line 360, `if target_ms > 0`). -/
theorem cue_audio_zero_target_counterexample :
    cue_emit_len (fun _ _ => 800) 800 ⟨0, 0, "x", "en", 1, true, []⟩ = 800 ∧
    cue_emit_len (fun _ _ => 800) 800 ⟨0, 0, "x", "en", 1, true, []⟩ ≠
      (((0 : Int)) - 0).toNat := by
  constructor
  · decide
  · decide

/-- C2: every cue sequence produced by the draft Cue Timeline Builder is
sorted in nondecreasing `start_ms` order, and every cue in it satisfies
`end_ms ≥ start_ms` (for repeat counts ≥ 1, as the data model's
`repeat_count ≥ 1` invariant requires). -/
theorem draft_cues_sorted_wellformed (tts : String → String → Nat) (cfg : DraftConfig)
    (triples : List Triple) (hp : 1 ≤ cfg.pRep) (hs : 1 ≤ cfg.sRep) :
    List.Pairwise (fun a b : Cue => a.start_ms ≤ b.start_ms)
      (build_draft_cues tts cfg triples) ∧
    ∀ c ∈ build_draft_cues tts cfg triples, c.start_ms ≤ c.end_ms :=
  ⟨build_from_pairwise tts cfg hp hs triples 0,
   fun c hc => (build_from_bounds tts cfg hp hs triples 0 c hc).2⟩

/-- Witness for C2 on a concrete two-line input with the default scenario
configuration. -/
theorem draft_cues_sorted_wellformed_witness :
    1 ≤ (1 : Int) ∧ 1 ≤ (2 : Int) ∧
    (List.Pairwise (fun a b : Cue => a.start_ms ≤ b.start_ms)
        (build_draft_cues (fun _ _ => 900) ⟨1, 2, 2500, 3500, true, "en", "fr"⟩
          [⟨"hello", "bonjour", ["tag"]⟩, ⟨"bye", "", []⟩]) ∧
      ∀ c ∈ build_draft_cues (fun _ _ => 900) ⟨1, 2, 2500, 3500, true, "en", "fr"⟩
          [⟨"hello", "bonjour", ["tag"]⟩, ⟨"bye", "", []⟩], c.start_ms ≤ c.end_ms) :=
  ⟨by decide, by decide,
   draft_cues_sorted_wellformed (fun _ _ => 900) _ _ (by decide) (by decide)⟩

/-- C3: for each input triple the primary cue's window length equals
`repeat_primary * d + (repeat_primary - 1) * pause_between_repeats`,
where `d` is the measured duration of the synthesized utterance; in
particular with repeat 2, `d = 900` ms and gap 2500 ms the window is
exactly 4300 ms. -/
theorem primary_cue_window_formula (tts : String → String → Nat) (cfg : DraftConfig)
    (triples : List Triple) (hp : 1 ≤ cfg.pRep) :
    (∀ c ∈ build_draft_cues tts cfg triples, c.is_primary = true →
        c.end_ms - c.start_ms =
          cfg.pRep * (tts c.text cfg.pLang : Int) + (cfg.pRep - 1) * (cfg.gapRep : Int)) ∧
    (build_draft_cues (fun _ _ => 900) ⟨2, 2, 2500, 3500, true, "en", "fr"⟩
        [⟨"x", "", []⟩]).map (fun c => c.end_ms - c.start_ms) = [4300] :=
  ⟨build_from_primary_window tts cfg hp triples 0, by decide⟩

/-- Witness for C3 at a concrete configuration. -/
theorem primary_cue_window_formula_witness :
    1 ≤ (2 : Int) ∧
    ∀ c ∈ build_draft_cues (fun _ _ => 900) ⟨2, 2, 2500, 3500, true, "en", "fr"⟩
        [⟨"x", "", []⟩], c.is_primary = true →
      c.end_ms - c.start_ms = 2 * ((900 : Nat) : Int) + (2 - 1) * ((2500 : Nat) : Int) :=
  ⟨by decide,
   (primary_cue_window_formula (fun _ _ => 900) ⟨2, 2, 2500, 3500, true, "en", "fr"⟩
      [⟨"x", "", []⟩] (by decide)).1⟩

/-- C4 (grid model from the spec, the `subtitles` module being absent
from the sources): snapping both boundaries of a cue with positive
pre-snap duration onto the fixed 10 ms grid never produces
`end_ms < start_ms`, because rounding to the nearest grid unit is
monotone — even without the post-snap clamp the spec asks for. -/
theorem grid_snap_no_inversion (c : Cue) (h : c.start_ms < c.end_ms) :
    (snap_cue c).start_ms ≤ (snap_cue c).end_ms := by
  simpa [snap_cue] using round_to_ass_grid_mono (le_of_lt h)

/-- Witness for C4 on a concrete cue with a 1 ms pre-snap duration. -/
theorem grid_snap_no_inversion_witness :
    (⟨4, 5, "x", "en", 1, true, []⟩ : Cue).start_ms <
      (⟨4, 5, "x", "en", 1, true, []⟩ : Cue).end_ms ∧
    (snap_cue ⟨4, 5, "x", "en", 1, true, []⟩).start_ms ≤
      (snap_cue ⟨4, 5, "x", "en", 1, true, []⟩).end_ms :=
  ⟨by decide, grid_snap_no_inversion _ (by decide)⟩

/-- C7 counterexample: for two cues that both start at 0 with total
length 0 and fps 30, the assembler emits 1-frame clips
(`max(1, round(...))`, video_utils.py line 973) although the claim's
formula `round(duration_ms * fps / 1000)` gives 0 frames for the empty
spans. -/
theorem slideshow_frames_counterexample :
    slideshow_frame_counts
        [⟨0, 0, "", "", 1, true, []⟩, ⟨0, 0, "", "", 1, true, []⟩] 0 30 = [1, 1] ∧
    pythonRound (((0 : Int) * (30 : Int) : Int) / (1000 : ℚ)) = 0 := by
  constructor
  · with_unfolding_all decide
  · with_unfolding_all decide

/-- C7 (amended): the Slideshow Assembler gives cue `i` the span
`[start_i, max(start_i, start_{i+1}))` and the last cue a span ending at
the total audio length, and renders every span as a clip of
`max(1, round_half_even(duration_ms * fps / 1000))` frames; this equals
the claim's `round` formula whenever that value is at least 1, and on the
scenario with starts `[0, 4300, 9000]`, total 12000 ms, fps 30, the spans
are `[0,4300), [4300,9000), [9000,12000)` with frame counts 129, 141,
90. -/
theorem slideshow_frames_amended :
    (compute_visual_spans
        [⟨0, 4300, "", "", 1, true, []⟩, ⟨4300, 9000, "", "", 1, true, []⟩,
         ⟨9000, 12000, "", "", 1, true, []⟩] 12000 =
        [(0, 4300), (4300, 9000), (9000, 12000)] ∧
      slideshow_frame_counts
        [⟨0, 4300, "", "", 1, true, []⟩, ⟨4300, 9000, "", "", 1, true, []⟩,
         ⟨9000, 12000, "", "", 1, true, []⟩] 12000 30 = [129, 141, 90]) ∧
    ∀ (span : Int × Int) (fps : Nat),
      1 ≤ pythonRound (((max 0 (span.2 - span.1) * (fps : Int) : Int)) / (1000 : ℚ)) →
      seg_frames span fps =
        pythonRound (((max 0 (span.2 - span.1) * (fps : Int) : Int)) / (1000 : ℚ)) := by
  refine ⟨⟨by decide, by with_unfolding_all decide⟩, ?_⟩
  intro span fps h
  unfold seg_frames
  exact max_eq_right h

/-- Witness for the conditional part of the amended C7 theorem at the
scenario's first span. -/
theorem slideshow_frames_amended_witness :
    1 ≤ pythonRound (((max 0 (((0 : Int), (4300 : Int)).2 - ((0 : Int), (4300 : Int)).1) *
        ((30 : Nat) : Int) : Int)) / (1000 : ℚ)) ∧
    seg_frames ((0 : Int), (4300 : Int)) 30 =
      pythonRound (((max 0 (((0 : Int), (4300 : Int)).2 - ((0 : Int), (4300 : Int)).1) *
        ((30 : Nat) : Int) : Int)) / (1000 : ℚ)) :=
  ⟨by with_unfolding_all decide,
   slideshow_frames_amended.2 (0, 4300) 30 (by with_unfolding_all decide)⟩

/-- C8: the Visual Resolver deduplicates downloads by source URL — while
walking the merged score-descending candidate list from both providers it
attempts each distinct source URL at most once, so two provider results
sharing a source URL cause only one download. -/
theorem visual_resolver_download_dedup (ok : String → Bool) (n : Nat) (query : String)
    (pixHits : List PixHit) (unsHits : List UnsHit) :
    (search_and_download_best ok n query pixHits unsHits).1.Nodup :=
  (download_walk_attempts_nodup ok n _ [] []).1

/-- C5 counterexample: on the sentence "hotel reception" in English the
matcher has two hits, "hotel exterior" and "hotel reception", tied at
match offset 0; their relative order in the output is exactly the
iteration order of the Python hash set (`sorted(set(hits), ...)`,
video_utils.py line 475): the identity order and the reversed order —
both permutations of the deduplicated hit list — give different outputs,
so the output is neither stable across runs nor tie-broken by lexicon
declaration order. -/
theorem matcher_tie_order_counterexample :
    _detect_candidates id "hotel reception" "en" =
      ["hotel exterior", "hotel reception"] ∧
    _detect_candidates List.reverse "hotel reception" "en" =
      ["hotel reception", "hotel exterior"] ∧
    (List.reverse (_detect_candidates_hits "hotel reception" "en")).Perm
      (_detect_candidates_hits "hotel reception" "en") ∧
    matcher_key "hotel reception" "en" "hotel exterior" =
      matcher_key "hotel reception" "en" "hotel reception" := by
  refine ⟨?_, ?_, List.reverse_perm _, ?_⟩
  · with_unfolding_all decide
  · with_unfolding_all decide
  · with_unfolding_all decide

/-- C5 (amended): for a fixed hash-set iteration order the Lexicon
Matcher is a pure function of the sentence and language, and its output
is always sorted by nondecreasing match-offset key and is a permutation
of the (set-ordered) hit list; ties in the key follow the unspecified set
order rather than lexicon declaration order, so cross-run order
stability holds exactly when the hits' keys are pairwise distinct. -/
theorem matcher_sorted_by_key (setOrder : List String → List String) (text lang : String) :
    List.Pairwise (fun a b => matcher_key text lang a ≤ matcher_key text lang b)
      (_detect_candidates setOrder text lang) ∧
    (_detect_candidates setOrder text lang).Perm
      (setOrder (_detect_candidates_hits text lang)) := by
  constructor
  · haveI : IsTotal String (fun a b => matcher_key text lang a ≤ matcher_key text lang b) :=
      ⟨fun a b => Nat.le_total _ _⟩
    haveI : IsTrans String (fun a b => matcher_key text lang a ≤ matcher_key text lang b) :=
      ⟨fun _ _ _ => Nat.le_trans⟩
    exact List.sorted_insertionSort _ _
  · exact List.perm_insertionSort _ _

/-- Each admitted prefix of the dedup/cap loop is no longer than the
remaining budget. -/
theorem dedupCapAux_length_le (l : List (String × Option String)) :
    ∀ (seen : List (String × Option String)) (budget : Nat),
      (dedupCapAux seen budget l).length ≤ budget := by
  induction l with
  | nil => intro seen budget; simp [dedupCapAux]
  | cons p rest ih =>
    intro seen budget
    obtain ⟨q, cat⟩ := p
    simp only [dedupCapAux]
    split_ifs with h0 hadm
    · simp
    · simp only [List.length_cons]
      have := ih (planKey (q, cat) :: seen) (budget - 1)
      omega
    · exact ih seen budget

/-- The dedup/cap loop returns a subsequence of its input. -/
theorem dedupCapAux_sublist (l : List (String × Option String)) :
    ∀ (seen : List (String × Option String)) (budget : Nat),
      (dedupCapAux seen budget l).Sublist l := by
  induction l with
  | nil => intro seen budget; simp [dedupCapAux]
  | cons p rest ih =>
    intro seen budget
    obtain ⟨q, cat⟩ := p
    simp only [dedupCapAux]
    split_ifs with h0 hadm
    · exact List.nil_sublist _
    · exact List.Sublist.cons₂ _ (ih _ _)
    · exact List.Sublist.cons _ (ih _ _)

/-- The dedup keys of the admitted pairs are pairwise distinct and avoid
the seen set. -/
theorem dedupCapAux_keys_nodup (l : List (String × Option String)) :
    ∀ (seen : List (String × Option String)) (budget : Nat),
      ((dedupCapAux seen budget l).map planKey).Nodup ∧
      ∀ k ∈ (dedupCapAux seen budget l).map planKey, k ∉ seen := by
  induction l with
  | nil => intro seen budget; simp [dedupCapAux]
  | cons p rest ih =>
    intro seen budget
    obtain ⟨q, cat⟩ := p
    simp only [dedupCapAux]
    split_ifs with h0 hadm
    · simp
    · simp only [List.map_cons, List.nodup_cons]
      refine ⟨⟨?_, (ih _ _).1⟩, ?_⟩
      · intro hmem
        have := (ih (planKey (q, cat) :: seen) (budget - 1)).2 _ hmem
        simp at this
      · intro k hk
        simp only [List.mem_cons] at hk
        rcases hk with rfl | hk
        · exact hadm.1
        · have := (ih (planKey (q, cat) :: seen) (budget - 1)).2 _ hk
          simp only [List.mem_cons] at this
          tauto
    · exact ih seen budget

/-- The dedup/cap loop yields a non-empty list whenever the budget is
positive and some input pair has a non-blank query and an unseen key. -/
theorem dedupCapAux_ne_nil (l : List (String × Option String)) :
    ∀ (seen : List (String × Option String)) (budget : Nat), budget ≠ 0 →
      (∃ p ∈ l, stripList p.1.data ≠ [] ∧ planKey p ∉ seen) →
      dedupCapAux seen budget l ≠ [] := by
  induction l with
  | nil =>
    intro seen budget hb hex
    obtain ⟨p, hp, _⟩ := hex
    simp at hp
  | cons p0 rest ih =>
    intro seen budget hb hex
    obtain ⟨q, cat⟩ := p0
    simp only [dedupCapAux]
    split_ifs with h0 hadm
    · exact absurd h0 hb
    · simp
    · obtain ⟨p, hp, hstrip, hkey⟩ := hex
      simp only [List.mem_cons] at hp
      rcases hp with rfl | hp
      · exact absurd ⟨hkey, hstrip⟩ hadm
      · exact ih seen budget hb ⟨p, hp, hstrip, hkey⟩

/-- Self-membership of `appendIfAbsent`. -/
theorem mem_appendIfAbsent (l : List (String × Option String)) (x : String × Option String) :
    x ∈ appendIfAbsent l x := by
  unfold appendIfAbsent
  split_ifs with h
  · exact h
  · simp

/-- `appendIfAbsent` preserves membership. -/
theorem mem_appendIfAbsent_of_mem (l : List (String × Option String))
    (x y : String × Option String) (h : y ∈ l) : y ∈ appendIfAbsent l x := by
  unfold appendIfAbsent
  split_ifs
  · exact h
  · simp [h]

/-- Folding `appendIfAbsent` preserves membership. -/
theorem mem_foldl_appendIfAbsent_of_mem {α : Type} (f : α → String × Option String)
    (l : List α) :
    ∀ (ps : List (String × Option String)) (y : String × Option String), y ∈ ps →
      y ∈ l.foldl (fun ps a => appendIfAbsent ps (f a)) ps := by
  induction l with
  | nil => intro ps y h; exact h
  | cons a rest ih =>
    intro ps y h
    simp only [List.foldl_cons]
    exact ih _ _ (mem_appendIfAbsent_of_mem _ _ _ h)

/-- Folding `appendIfAbsent` over a list makes every image a member. -/
theorem mem_foldl_appendIfAbsent_self {α : Type} (f : α → String × Option String)
    (l : List α) :
    ∀ (ps : List (String × Option String)) (a : α), a ∈ l →
      f a ∈ l.foldl (fun ps a => appendIfAbsent ps (f a)) ps := by
  induction l with
  | nil => intro ps a ha; simp at ha
  | cons b rest ih =>
    intro ps a ha
    simp only [List.foldl_cons]
    rcases List.mem_cons.mp ha with rfl | ha
    · exact mem_foldl_appendIfAbsent_of_mem _ _ _ _ (mem_appendIfAbsent _ _)
    · exact ih _ _ ha

set_option maxRecDepth 40000 in
/-- Every domain's anchor list has a head with a non-blank query. -/
theorem domain_anchor_head (domain : String) :
    (_domain_anchor domain).headD "" ∈ _domain_anchor domain ∧
    stripList ((_domain_anchor domain).headD "").data ≠ [] := by
  unfold _domain_anchor
  split_ifs <;> exact ⟨by decide, by decide⟩

/-- The final anchor/hint loop of the query builder puts the first plain
domain-anchor pair into the pair list. -/
theorem anchors_pair_mem_pairs5 (pcat : Option String) (domain : String)
    (hs : List String) (ps4 : List (String × Option String)) :
    ∃ p ∈ (_domain_anchor domain ++ hs).foldl
        (fun ps q => appendIfAbsent ps (q, pcat)) ps4,
      stripList p.1.data ≠ [] ∧ planKey p ∉ ([] : List (String × Option String)) := by
  refine ⟨((_domain_anchor domain).headD "", pcat), ?_, (domain_anchor_head domain).2, by simp⟩
  exact mem_foldl_appendIfAbsent_self (fun q => (q, pcat)) _ _ _
    (List.mem_append_left _ (domain_anchor_head domain).1)

set_option maxRecDepth 400000 in
/-- C6: for every sentence and language (and any hash-set order and any
mined-hints table) the Query Builder returns a non-empty Query Plan of at
most 1 + 8 pairs whose `(lowercased stripped query, category)` keys are
pairwise distinct, preserving the first-seen order of the built pair
list; in the worst case — empty sentence, no mined hints — the plan
still contains the generic anchor phrase "people indoors". -/
theorem query_plan_wellformed :
    (∀ (setOrder : List String → List String) (hints : String → List String)
        (text lang : String),
      (sentence_to_query_extras setOrder hints text lang).1 ≠ [] ∧
      (sentence_to_query_extras setOrder hints text lang).1.length ≤ 1 + 8 ∧
      ((sentence_to_query_extras setOrder hints text lang).1.map planKey).Nodup ∧
      (sentence_to_query_extras setOrder hints text lang).1.Sublist
        (query_extras_pairs setOrder hints text lang).1) ∧
    ("people indoors", (none : Option String)) ∈
      (sentence_to_query_extras id (fun _ => []) "" "en").1 := by
  constructor
  · intro setOrder hints text lang
    refine ⟨?_, dedupCapAux_length_le _ _ _, (dedupCapAux_keys_nodup _ _ _).1,
      dedupCapAux_sublist _ _ _⟩
    show dedupCapAux [] (1 + 8) (query_extras_pairs setOrder hints text lang).1 ≠ []
    refine dedupCapAux_ne_nil _ _ _ (by norm_num) ?_
    simp only [query_extras_pairs]
    exact anchors_pair_mem_pairs5 _ _ _ _
  · with_unfolding_all decide

/-- The overlap factor of a candidate with no tag tokens is 0. -/
theorem overlapVal_of_no_tokens (tags : String) (raw : List String)
    (h : tagTokensOf tags = []) : overlapVal tags raw = 0 := by
  unfold overlapVal
  rw [h]
  simp

/-- `_score_hit` below the tag threshold reduces to the bare overlap
(or 0 for an empty tag-token set). -/
theorem score_hit_below_threshold (tags : String) (raw : List String)
    (h : triVal tags raw < 25 / 100) :
    _score_hit tags raw = overlapVal tags raw := by
  unfold _score_hit
  rw [if_neg (not_le.mpr h)]
  split_ifs with he
  · rw [overlapVal_of_no_tokens _ _ (List.isEmpty_iff.mp he)]
  · ring

/-- C9: across the two provider rankers, candidates with equal overlap
and no boosts compare equal — for the same query, a Pixabay candidate
and an Unsplash candidate with the same overlap value, trigram tag
similarity below the 0.25 threshold, no domain-keyword boost, the
photo-type factor not applied and zero likes, receive exactly the same
score. -/
theorem cross_provider_equal_scores (query tagsP tagsU typ : String) (likes : Int)
    (hov : overlapVal tagsP (_tokenize (_normalize_text query) "en") =
      overlapVal tagsU (_tokenize (_normalize_text query) "en"))
    (htP : triVal tagsP (_tokenize (_normalize_text query) "en") < 25 / 100)
    (htU : triVal tagsU (_tokenize (_normalize_text query) "en") < 25 / 100)
    (hbP : _domain_keyword_boost tagsP = 1)
    (hbU : _domain_keyword_boost tagsU = 1)
    (htyp : typ ≠ "photo")
    (hlikes : likes = 0) :
    pixabay_score query tagsP typ = unsplash_score query tagsU likes := by
  subst hlikes
  unfold pixabay_score unsplash_score
  rw [hbP, hbU, if_neg htyp]
  have hmin : ((0 : Int) ⊓ 200) = 0 := min_eq_left (by norm_num)
  simp only [score_hit_below_threshold _ _ htP, score_hit_below_threshold _ _ htU, hov, hmin]
  norm_num

/-- Witness for C9: tags "zebra" on both sides against the query "zebra
unicorn dragon turtle penguin" give overlap 1/5, trigram similarity 3/19
< 0.25, no domain keywords, a non-photo Pixabay type and zero likes. -/
theorem cross_provider_equal_scores_witness :
    (overlapVal "zebra" (_tokenize (_normalize_text "zebra unicorn dragon turtle penguin") "en") =
      overlapVal "zebra"
        (_tokenize (_normalize_text "zebra unicorn dragon turtle penguin") "en")) ∧
    (triVal "zebra" (_tokenize (_normalize_text "zebra unicorn dragon turtle penguin") "en") <
      25 / 100) ∧
    _domain_keyword_boost "zebra" = 1 ∧
    ("illustration" : String) ≠ "photo" ∧
    pixabay_score "zebra unicorn dragon turtle penguin" "zebra" "illustration" =
      unsplash_score "zebra unicorn dragon turtle penguin" "zebra" 0 := by
  have ht : triVal "zebra"
      (_tokenize (_normalize_text "zebra unicorn dragon turtle penguin") "en") < 25 / 100 := by
    with_unfolding_all decide
  have hb : _domain_keyword_boost "zebra" = 1 := by
    with_unfolding_all decide
  exact ⟨rfl, ht, hb, by decide,
    cross_provider_equal_scores _ _ _ _ _ rfl ht ht hb hb (by decide) rfl⟩

/-- The trigram tag similarity is never negative. -/
theorem triVal_nonneg (tags : String) (raw : List String) : 0 ≤ triVal tags raw := by
  unfold triVal
  dsimp only
  split_ifs
  · exact le_max_right _ _
  · exact le_refl 0

/-- The overlap factor is never negative. -/
theorem overlapVal_nonneg (tags : String) (raw : List String) : 0 ≤ overlapVal tags raw := by
  unfold overlapVal
  exact div_nonneg (Nat.cast_nonneg _) (Nat.cast_nonneg _)

/-- `_score_hit` is never negative. -/
theorem score_hit_nonneg (tags : String) (raw : List String) : 0 ≤ _score_hit tags raw := by
  unfold _score_hit
  split_ifs with he hth
  · exact le_refl 0
  · refine mul_nonneg (overlapVal_nonneg _ _) ?_
    have := triVal_nonneg tags raw
    linarith
  · refine mul_nonneg (overlapVal_nonneg _ _) ?_
    linarith

/-- The domain keyword boost is never negative. -/
theorem domain_keyword_boost_nonneg (t : String) : 0 ≤ _domain_keyword_boost t := by
  unfold _domain_keyword_boost
  dsimp only
  split_ifs <;> norm_num

/-- A Pixabay score is never negative. -/
theorem pixabay_score_nonneg (query tags typ : String) : 0 ≤ pixabay_score query tags typ := by
  unfold pixabay_score
  refine mul_nonneg (mul_nonneg (score_hit_nonneg _ _) (domain_keyword_boost_nonneg _)) ?_
  split_ifs <;> norm_num

/-- An Unsplash score is never negative for a non-negative like count. -/
theorem unsplash_score_nonneg (query tags : String) (likes : Int) (h : 0 ≤ likes) :
    0 ≤ unsplash_score query tags likes := by
  unfold unsplash_score
  refine mul_nonneg (mul_nonneg (score_hit_nonneg _ _) (domain_keyword_boost_nonneg _)) ?_
  have hmin : (0 : Int) ≤ min likes 200 := le_min h (by norm_num)
  have : (0 : ℚ) ≤ ((min likes 200 : Int) : ℚ) := by exact_mod_cast hmin
  have : (0 : ℚ) ≤ ((min likes 200 : Int) : ℚ) / 500 := by positivity
  linarith

/-- Every candidate of `_pixabay_ranked` carries the Pixabay score of its
hit. -/
theorem mem_pixabay_ranked (query : String) (hits : List PixHit) (r : RankedItem)
    (hr : r ∈ _pixabay_ranked query hits) :
    ∃ h ∈ hits, r.score = pixabay_score query h.tags h.type := by
  unfold _pixabay_ranked at hr
  have hmem := (List.perm_insertionSort _ _).mem_iff.mp hr
  obtain ⟨h, hh, hsome⟩ := List.mem_filterMap.mp hmem
  refine ⟨h, hh, ?_⟩
  rcases hft : firstTruthy [h.largeImageURL, h.webformatURL] with _ | src
  · rw [hft] at hsome; simp at hsome
  · rw [hft] at hsome
    simp only [Option.some.injEq] at hsome
    rw [← hsome]

/-- Every candidate of `_unsplash_ranked` carries the Unsplash score of
its result. -/
theorem mem_unsplash_ranked (query : String) (hits : List UnsHit) (r : RankedItem)
    (hr : r ∈ _unsplash_ranked query hits) :
    ∃ h ∈ hits, r.score = unsplash_score query (unsHitTags h) h.likes := by
  unfold _unsplash_ranked at hr
  have hmem := (List.perm_insertionSort _ _).mem_iff.mp hr
  obtain ⟨h, hh, hsome⟩ := List.mem_filterMap.mp hmem
  refine ⟨h, hh, ?_⟩
  rcases hft : firstTruthy [h.urls_regular, h.urls_full, h.urls_raw] with _ | src
  · rw [hft] at hsome; simp at hsome
  · rw [hft] at hsome
    simp only [Option.some.injEq] at hsome
    rw [← hsome]

/-- C10: every Ranked Image Candidate produced by either provider ranker
has a non-negative score (assuming non-negative like counts for the
Unsplash results), and a candidate whose tag/description text yields no
tokens scores exactly 0. -/
theorem ranked_scores_nonneg (query : String) (pixHits : List PixHit)
    (unsHits : List UnsHit) (hl : ∀ h ∈ unsHits, 0 ≤ h.likes) :
    (∀ r ∈ _pixabay_ranked query pixHits, 0 ≤ r.score) ∧
    (∀ r ∈ _unsplash_ranked query unsHits, 0 ≤ r.score) ∧
    (∀ tags typ, tagTokensOf tags = [] → pixabay_score query tags typ = 0) ∧
    (∀ tags likes, tagTokensOf tags = [] → unsplash_score query tags likes = 0) := by
  refine ⟨?_, ?_, ?_, ?_⟩
  · intro r hr
    obtain ⟨h, _, hscore⟩ := mem_pixabay_ranked query pixHits r hr
    rw [hscore]
    exact pixabay_score_nonneg _ _ _
  · intro r hr
    obtain ⟨h, hh, hscore⟩ := mem_unsplash_ranked query unsHits r hr
    rw [hscore]
    exact unsplash_score_nonneg _ _ _ (hl h hh)
  · intro tags typ he
    unfold pixabay_score _score_hit
    dsimp only
    rw [if_pos (by simp [he])]
    ring
  · intro tags likes he
    unfold unsplash_score _score_hit
    dsimp only
    rw [if_pos (by simp [he])]
    ring

/-- Witness for C10 on one concrete result per provider. -/
theorem ranked_scores_nonneg_witness :
    (∀ h ∈ [(⟨some "u", none, none, ["dog"], some "alt", none, 5⟩ : UnsHit)], 0 ≤ h.likes) ∧
    ((∀ r ∈ _pixabay_ranked "dog" [(⟨some "p", none, "dog, park", "photo"⟩ : PixHit)],
        0 ≤ r.score) ∧
      (∀ r ∈ _unsplash_ranked "dog" [(⟨some "u", none, none, ["dog"], some "alt", none, 5⟩ : UnsHit)],
        0 ≤ r.score) ∧
      (∀ tags typ, tagTokensOf tags = [] → pixabay_score "dog" tags typ = 0) ∧
      (∀ tags likes, tagTokensOf tags = [] → unsplash_score "dog" tags likes = 0)) :=
  ⟨by decide,
   ranked_scores_nonneg "dog" [(⟨some "p", none, "dog, park", "photo"⟩ : PixHit)]
     [(⟨some "u", none, none, ["dog"], some "alt", none, 5⟩ : UnsHit)] (by decide)⟩

end TTSApp
